import Mathlib

/-!
Verification of the generation-and-polling workflow of the
`runway-text-to-video` client (`runway_text_to_video.py`, `config.py`).

The Python source is shallowly embedded: the remote service is modelled as
an explicit sequence of per-poll responses, time as the number of seconds
slept so far, and each function's observable effects (network calls issued,
bytes written, seconds slept) are returned as data.
-/

namespace RunwayTTV

/-- The JSON body returned by the status endpoint, `result` in
`wait_for_completion`.  Each field models `result.get(key)`: `none` means the
key is absent from the dict. -/
structure TaskResult where
  status : Option String
  error : Option String
  video_url : Option String
deriving DecidableEq, Repr

/-- `result.get("status", "")` in `wait_for_completion` (line 111). -/
def statusOf (r : TaskResult) : String := r.status.getD ""

/-- `result.get("error", "Unknown error")` in `wait_for_completion` (line 116). -/
def errorOf (r : TaskResult) : String := r.error.getD "Unknown error"

/-- The outcome of one poll of the remote service, before
`check_generation_status` interprets it: either a transport-level failure
(`requests.exceptions.RequestException`, carried as its message) or an HTTP
response with a status code and a parsed JSON body. -/
def PollResponse := Except String (Nat × TaskResult)

/-- `RunwayTextToVideo.check_generation_status` (lines 70-93): on HTTP 200
return the parsed JSON; on any other code raise
"Status check failed: code"; on a transport error raise
"Status check request failed: msg".  The raised exception is modelled as
`Except.error`. -/
def check_generation_status (resp : PollResponse) : Except String TaskResult :=
  match resp with
  | .error e => .error ("Status check request failed: " ++ e)
  | .ok (code, body) =>
      if code = 200 then .ok body
      else .error ("Status check failed: " ++ toString code)

/-- What one iteration of the `while` loop in `wait_for_completion` does
after the `try`/`except` has resolved: return a result from the function,
sleep 10 seconds (status "queued"/"processing"), or sleep 5 seconds
(unknown status, or an exception caught by the `except` clause). -/
inductive IterOutcome where
  | ret (r : TaskResult)
  | sleepTen
  | sleepFive
deriving DecidableEq, Repr

/-- The body of the `try` block in `wait_for_completion` (lines 109-122):
poll, then dispatch on the status string.  `Except.error` is an exception
propagating out of the `try` block — either from
`check_generation_status` or from the explicit
`raise Exception("Generation failed: ...")` on status "failed" (line 116). -/
def iter_try (resp : PollResponse) : Except String IterOutcome :=
  match check_generation_status resp with
  | .error e => .error e
  | .ok result =>
      if statusOf result = "completed" then .ok (.ret result)
      else if statusOf result = "failed" then
        .error ("Generation failed: " ++ errorOf result)
      else if statusOf result = "queued" ∨ statusOf result = "processing" then
        .ok .sleepTen
      else .ok .sleepFive

/-- One full iteration of the loop including the
`except Exception` handler (lines 124-126): any exception raised inside the
`try` block — transport errors, but also the "Generation failed" exception
raised on status "failed" — is caught, printed, and turned into a
5-second sleep followed by another iteration. -/
def iter_handled (resp : PollResponse) : IterOutcome :=
  match iter_try resp with
  | .ok o => o
  | .error _ => .sleepFive

/-- The result of `wait_for_completion`: the function either returns a
task result (`return result`, line 114) or raises
`Exception("Generation timed out")` (line 128). -/
inductive Outcome where
  | ok (r : TaskResult)
  | timeout
deriving DecidableEq, Repr

/-- The observable behaviour of a `wait_for_completion` call: its outcome,
how many times it polled the status endpoint, and the list of sleeps (in
seconds, in order) it performed. -/
structure Trace where
  outcome : Outcome
  polls : Nat
  sleeps : List Nat
deriving DecidableEq, Repr

/-- The `while time.time() - start_time < max_wait_time` loop of
`wait_for_completion` (lines 106-128).  `responses i` is what the service
does on the i-th poll; `elapsed` is the seconds slept so far (polls are
modelled as instantaneous, so `time.time() - start_time = elapsed`).
Every iteration that does not return sleeps at least 5 seconds, which is
what makes the loop terminate. -/
def wait_loop (responses : Nat → PollResponse) (budget : Nat)
    (elapsed i : Nat) : Trace :=
  if elapsed < budget then
    match iter_handled (responses i) with
    | .ret r => { outcome := .ok r, polls := 1, sleeps := [] }
    | .sleepTen =>
        let t := wait_loop responses budget (elapsed + 10) (i + 1)
        { t with polls := t.polls + 1, sleeps := 10 :: t.sleeps }
    | .sleepFive =>
        let t := wait_loop responses budget (elapsed + 5) (i + 1)
        { t with polls := t.polls + 1, sleeps := 5 :: t.sleeps }
  else { outcome := .timeout, polls := 0, sleeps := [] }
termination_by budget - elapsed
decreasing_by all_goals omega

/-- `RunwayTextToVideo.wait_for_completion` (lines 95-128), with the
service's per-poll behaviour passed in explicitly.  `max_wait_time`
defaults to 300 as in the source. -/
def wait_for_completion (responses : Nat → PollResponse)
    (max_wait_time : Nat := 300) : Trace :=
  wait_loop responses max_wait_time 0 0

/-! ## Configuration (`config.py`) -/

/-- `SUPPORTED_RESOLUTIONS` from `config.py` (lines 21-26). -/
def SUPPORTED_RESOLUTIONS : List String :=
  ["1280x768", "1920x1080", "768x1280", "1080x1920"]

/-- `DURATION_LIMITS` from `config.py` (lines 28-31): (min, max). -/
def DURATION_LIMITS : Int × Int := (1, 10)

/-- `MOTION_STRENGTH_LIMITS` from `config.py` (lines 33-36): (min, max).
Python floats 0.0 and 1.0, represented exactly as rationals. -/
def MOTION_STRENGTH_LIMITS : Rat × Rat := (0, 1)

/-! ## Submission (`generate_video`, lines 24-68) -/

/-- The JSON payload `generate_video` builds (lines 44-52).  `seed = none`
means the "seed" key is absent from the dict.  `motion_strength` is a
Python float that is only passed through, never computed with; it is
represented exactly as a rational. -/
structure Payload where
  text_prompt : String
  duration : Int
  resolution : String
  motion_strength : Rat
  seed : Option Int
deriving Repr

/-- The payload-building prefix of `generate_video` (lines 44-52): the four
mandatory fields, plus "seed" exactly when `if seed:` is true in Python —
that is, when a seed was supplied and it is non-zero (any non-zero integer,
negative ones included, passes the truthiness test). -/
def build_payload (text_prompt : String) (duration : Int) (resolution : String)
    (seed : Option Int) (motion_strength : Rat) : Payload :=
  { text_prompt := text_prompt
    duration := duration
    resolution := resolution
    motion_strength := motion_strength
    seed := match seed with
      | none => none
      | some s => if s = 0 then none else some s }

/-- The parsed JSON body of a successful submission response
(`response.json()`, line 63).  Only the "id" key is inspected downstream
(`result.get("id")`, line 242). -/
structure SubmitJson where
  id : Option String
deriving DecidableEq, Repr

/-- The HTTP response to the submission POST: status code, parsed JSON
body, and raw text (used in the error message on line 65). -/
structure PostResponse where
  status_code : Nat
  json : SubmitJson
  text : String
deriving DecidableEq, Repr

/-- The exceptions `generate_video` can raise: "API Error: code - text"
(line 65) on a non-200 response, "Request failed: msg" (line 68) on a
transport error.  There is no validation error: the function performs no
local parameter checks. -/
inductive SubmitError where
  | apiError (code : Nat) (text : String)
  | requestFailed (msg : String)
deriving DecidableEq, Repr

/-- The observable behaviour of one `generate_video` call: the list of
network requests it issued (in order) and its result or raised
exception. -/
structure SubmitTrace where
  requests : List Payload
  result : Except SubmitError SubmitJson
deriving Repr

/-- `RunwayTextToVideo.generate_video` (lines 24-68), with the service's
response to the POST passed in explicitly (`Except.error` being a
transport-level `RequestException`).  The function builds the payload,
unconditionally POSTs it — there is no validation of duration, resolution
or motion strength against the `config.py` limits — and then returns the
parsed JSON on HTTP 200 or raises. -/
def generate_video (text_prompt : String) (duration : Int) (resolution : String)
    (seed : Option Int) (motion_strength : Rat)
    (response : Except String PostResponse) : SubmitTrace :=
  let payload := build_payload text_prompt duration resolution seed motion_strength
  match response with
  | .error e => ⟨[payload], .error (.requestFailed e)⟩
  | .ok r =>
      if r.status_code = 200 then ⟨[payload], .ok r.json⟩
      else ⟨[payload], .error (.apiError r.status_code r.text)⟩

/-! ## Post-submission workflow (`generate_video_workflow`, lines 219-252) -/

/-- What `generate_video_workflow` does right after submission (lines
242-252): either it reports "Failed to start generation" and returns
before any polling, or it proceeds to `wait_for_completion` with the job
identifier. -/
inductive WorkflowStep where
  | failedToStart
  | polling (task_id : String)
deriving DecidableEq, Repr

/-- Lines 242-245 of `generate_video_workflow`:
`task_id = result.get("id"); if not task_id: st.error(...); return`.
A missing "id" yields `None`, and an empty string is also falsy in Python;
both abort before polling. -/
def workflow_after_submit (result : SubmitJson) : WorkflowStep :=
  match result.id with
  | none => .failedToStart
  | some tid => if tid = "" then .failedToStart else .polling tid

/-! ## Download (`download_video`, lines 130-154) -/

/-- The HTTP response to the artifact GET: status code and body bytes. -/
structure DlResponse where
  status_code : Nat
  content : List Nat
deriving DecidableEq, Repr

/-- `response.iter_content(chunk_size=size)` (line 146), modelled from the
contract of the `requests` library: the body split into successive chunks
of `size` bytes (the last possibly shorter). -/
def chunkList [DecidableEq α] (size : Nat) (l : List α) : List (List α) :=
  if _h1 : size = 0 then []
  else if h2 : l = [] then []
  else l.take size :: chunkList size (l.drop size)
termination_by l.length
decreasing_by
  have := List.length_pos.mpr h2
  simp only [List.length_drop]
  omega

/-- `RunwayTextToVideo.download_video` (lines 130-154), with the HTTP
response passed in explicitly.  The first component is the destination
file's contents: `none` means the file was never opened — `open(filename,
'wb')` occurs only in the 200 branch (line 145).  On 200 the chunks are
written in order (the fold of appends); the call returns the filename.
Otherwise the function raises without touching the file. -/
def download_video (chunkSize : Nat) (response : Except String DlResponse)
    (filename : String) : Option (List Nat) × Except String String :=
  match response with
  | .error e => (none, .error ("Download request failed: " ++ e))
  | .ok r =>
      if r.status_code = 200 then
        (some ((chunkList chunkSize r.content).foldl (fun acc c => acc ++ c) []),
         .ok filename)
      else (none, .error ("Download failed: " ++ toString r.status_code))

/-- A status response with state "queued". -/
def queuedResult : TaskResult := ⟨some "queued", none, none⟩

/-- A status response with state "processing". -/
def processingResult : TaskResult := ⟨some "processing", none, none⟩

/-- A status response with state "completed" and a video URL. -/
def completedResult : TaskResult := ⟨some "completed", none, some "https://x/y.mp4"⟩

/-- A status response with state "failed" and a service error text. -/
def failedResult : TaskResult := ⟨some "failed", some "boom", none⟩

/-- The C4 poll sequence: queued, then processing, then completed. -/
def c4_responses : Nat → PollResponse := fun i =>
  if i = 0 then .ok (200, queuedResult)
  else if i = 1 then .ok (200, processingResult)
  else .ok (200, completedResult)

/-- The C5 witness poll sequence: a transport error, then completed. -/
def c5_responses : Nat → PollResponse := fun i =>
  if i = 0 then .error "connection reset" else .ok (200, completedResult)

/-- If a loop iteration returns from `wait_for_completion`, the returned
result has status "completed": the `return` on line 114 is the only way
out of the `try` block with a value. -/
theorem iter_handled_ret (resp : PollResponse) (r : TaskResult)
    (h : iter_handled resp = .ret r) : statusOf r = "completed" := by
  unfold iter_handled iter_try at h
  cases hc : check_generation_status resp with
  | error e => rw [hc] at h; simp at h
  | ok result =>
      rw [hc] at h
      by_cases h1 : statusOf result = "completed"
      · simp only [h1, if_true] at h
        simp at h
        rw [← h]; exact h1
      · by_cases h2 : statusOf result = "failed"
        · simp [h1, h2] at h
        · by_cases h3 : statusOf result = "queued" ∨ statusOf result = "processing"
          · simp [h1, h2, h3] at h
          · simp [h1, h2, h3] at h

/-- The poll loop, started at any point, ends with either a timeout or a
result whose status is "completed". -/
theorem wait_loop_outcome (responses : Nat → PollResponse) (budget elapsed i : Nat) :
    (wait_loop responses budget elapsed i).outcome = .timeout ∨
    ∃ r, (wait_loop responses budget elapsed i).outcome = .ok r ∧
      statusOf r = "completed" := by
  rw [wait_loop]
  split
  next h =>
    split
    next r hr => exact Or.inr ⟨r, rfl, iter_handled_ret _ r hr⟩
    next hr => simpa using wait_loop_outcome responses budget (elapsed + 10) (i + 1)
    next hr => simpa using wait_loop_outcome responses budget (elapsed + 5) (i + 1)
  next h => exact Or.inl rfl
termination_by budget - elapsed
decreasing_by all_goals omega

/-- C3: for every wait budget and every (possibly forever non-terminal)
sequence of service responses, `wait_for_completion` terminates — the loop
body sleeps at least 5 seconds whenever it does not return, so the elapsed
time reaches the budget — and the call ends either by returning a
"completed" result or by raising the timeout exception.  (The
"Generation failed" exception permitted by the claim never actually
escapes, see the C1 theorem; returning or timing out are the only
outcomes, which is within the claim's disjunction.) -/
theorem wait_for_completion_terminates (responses : Nat → PollResponse)
    (budget : Nat) :
    (wait_for_completion responses budget).outcome = .timeout ∨
    ∃ r, (wait_for_completion responses budget).outcome = .ok r ∧
      statusOf r = "completed" :=
  wait_loop_outcome responses budget 0 0

/-- C1 (code bug): on a service that reports status "failed" on every poll,
the `try` block does raise "Generation failed: boom" (first conjunct), but
the blanket `except Exception` on line 124 catches that very exception,
sleeps 5 seconds and polls again; with a 12-second budget the call polls
3 times and ends by raising the generic timeout exception instead of
failing immediately after one poll with the service error text. -/
theorem wait_for_completion_failed_swallowed :
    iter_try (.ok (200, failedResult)) = .error "Generation failed: boom" ∧
    wait_for_completion (fun _ => .ok (200, failedResult)) 12 =
      ⟨.timeout, 3, [5, 5, 5]⟩ := by
  constructor
  · simp [iter_try, check_generation_status, statusOf, errorOf, failedResult]
  · simp [wait_for_completion, wait_loop, iter_handled, iter_try,
      check_generation_status, statusOf, errorOf, failedResult]

/-- C4: on the poll sequence [queued, processing, completed] with the
default 300-second budget, `wait_for_completion` returns the completed
result (with its artifact URL) after exactly two 10-second sleeps — one per
non-terminal status — and no sleep after observing "completed". -/
theorem wait_for_completion_two_waits :
    wait_for_completion c4_responses 300 =
      ⟨.ok completedResult, 3, [10, 10]⟩ := by
  simp [wait_for_completion, wait_loop, iter_handled, iter_try,
    check_generation_status, statusOf, c4_responses,
    queuedResult, processingResult, completedResult]

/-- C5: if the first poll attempt fails with a transport error and the
second poll returns a "completed" response, then — provided the wait budget
exceeds the 5-second retry sleep — the transport error is not fatal: the
loop sleeps 5 seconds, retries, and the whole call succeeds with the
completed result after exactly two polls. -/
theorem wait_for_completion_transient_recovers (responses : Nat → PollResponse)
    (e : String) (r : TaskResult) (budget : Nat)
    (h0 : responses 0 = .error e) (h1 : responses 1 = .ok (200, r))
    (hc : statusOf r = "completed") (hb : 5 < budget) :
    wait_for_completion responses budget = ⟨.ok r, 2, [5]⟩ := by
  have hb0 : 0 < budget := by omega
  simp [wait_for_completion, wait_loop, iter_handled, iter_try,
    check_generation_status, h0, h1, hc, hb, hb0]

/-- Witness for C5 at a concrete poll sequence and budget. -/
theorem wait_for_completion_transient_recovers_witness :
    wait_for_completion c5_responses 300 = ⟨.ok completedResult, 2, [5]⟩ :=
  wait_for_completion_transient_recovers c5_responses "connection reset"
    completedResult 300 (by simp [c5_responses]) (by simp [c5_responses])
    (by simp [statusOf, completedResult]) (by decide)

/-- C6: against a service that never reports a terminal state, calling
`wait_for_completion` with a zero budget fails immediately with the timeout
exception and performs at most one poll (in fact zero: the `while`
condition is checked before the first poll). -/
theorem wait_for_completion_zero_budget (responses : Nat → PollResponse)
    (h : ∀ i code r, responses i = .ok (code, r) →
      statusOf r ≠ "completed" ∧ statusOf r ≠ "failed") :
    (wait_for_completion responses 0).outcome = .timeout ∧
    (wait_for_completion responses 0).polls ≤ 1 := by
  simp [wait_for_completion, wait_loop]

/-- Witness for C6 at a concrete never-terminal service. -/
theorem wait_for_completion_zero_budget_witness :
    (wait_for_completion (fun _ => .ok (200, queuedResult)) 0).outcome = .timeout ∧
    (wait_for_completion (fun _ => .ok (200, queuedResult)) 0).polls ≤ 1 :=
  wait_for_completion_zero_budget (fun _ => .ok (200, queuedResult))
    (by intro i code r hc
        injection hc with h2
        injection h2 with ha hb
        rw [← hb]
        simp [statusOf, queuedResult])

/-- C2 (counterexample): a duration of 100 lies outside the configured
`DURATION_LIMITS` of [1, 10], yet `generate_video` raises no validation
error and does contact the remote service: it issues exactly one POST and
simply returns the service's JSON. -/
theorem generate_video_out_of_range_submits :
    ¬(DURATION_LIMITS.1 ≤ (100 : Int) ∧ (100 : Int) ≤ DURATION_LIMITS.2) ∧
    (generate_video "a calm lake" 100 "1280x768" none (4/5)
        (.ok ⟨200, ⟨some "job-123"⟩, ""⟩)).requests.length = 1 ∧
    (generate_video "a calm lake" 100 "1280x768" none (4/5)
        (.ok ⟨200, ⟨some "job-123"⟩, ""⟩)).result = .ok ⟨some "job-123"⟩ := by
  refine ⟨by decide, ?_, ?_⟩ <;> simp [generate_video, build_payload]

/-- C2 (amended): `generate_video` performs no pre-submission validation.
Even when the duration is outside the configured limits, or the motion
strength is outside [0, 1], or the resolution is unsupported, it issues
exactly one network call, carrying the out-of-range values verbatim. -/
theorem generate_video_no_local_validation (tp : String) (d : Int)
    (res : String) (s : Option Int) (m : Rat)
    (response : Except String PostResponse)
    (h : d < DURATION_LIMITS.1 ∨ DURATION_LIMITS.2 < d ∨
         m < MOTION_STRENGTH_LIMITS.1 ∨ MOTION_STRENGTH_LIMITS.2 < m ∨
         res ∉ SUPPORTED_RESOLUTIONS) :
    (generate_video tp d res s m response).requests =
      [build_payload tp d res s m] := by
  cases response with
  | error e => rfl
  | ok r => by_cases hc : r.status_code = 200 <;> simp [generate_video, hc]

/-- Witness for the amended C2 at a concrete out-of-range request. -/
theorem generate_video_no_local_validation_witness :
    (generate_video "a calm lake" 100 "1280x768" none (4/5)
        (.ok ⟨200, ⟨some "job-123"⟩, ""⟩)).requests =
      [build_payload "a calm lake" 100 "1280x768" none (4/5)] :=
  generate_video_no_local_validation "a calm lake" 100 "1280x768" none (4/5)
    (.ok ⟨200, ⟨some "job-123"⟩, ""⟩) (Or.inr (Or.inl (by decide)))

/-- C7 (counterexample): a provided seed of -3 is not a positive integer,
yet the Python truthiness test `if seed:` accepts it, so the payload does
contain a "seed" field. -/
theorem build_payload_negative_seed :
    (build_payload "p" 4 "1280x768" (some (-3)) (4/5)).seed = some (-3) ∧
    ¬(0 < (-3 : Int)) := by
  exact ⟨by simp [build_payload], by decide⟩

/-- C7 (amended): the serialized payload contains a "seed" field exactly
when a seed was provided and it is non-zero (`if seed:`); a zero or absent
seed omits the field, and any non-zero seed — negative ones included — is
passed through. -/
theorem build_payload_seed_iff (tp : String) (d : Int) (res : String)
    (m : Rat) (s : Option Int) :
    (build_payload tp d res s m).seed.isSome ↔ ∃ v, s = some v ∧ v ≠ 0 := by
  cases s with
  | none => simp [build_payload]
  | some v => by_cases hv : v = 0 <;> simp [build_payload, hv]

/-- C9: when the submission response parses successfully but carries no
"id" field, `generate_video_workflow` reports a start failure and returns
before ever calling `wait_for_completion`: no usable job handle exists and
no polling happens. -/
theorem workflow_missing_id_aborts (result : SubmitJson)
    (h : result.id = none) :
    workflow_after_submit result = .failedToStart := by
  simp [workflow_after_submit, h]

/-- Witness for C9 at the concrete id-less response. -/
theorem workflow_missing_id_aborts_witness :
    workflow_after_submit ⟨none⟩ = .failedToStart :=
  workflow_missing_id_aborts ⟨none⟩ rfl

/-- Folding the writes of the successive chunks onto an already-written
prefix reproduces the prefix followed by the whole payload. -/
theorem chunkList_foldl_append [DecidableEq α] (size : Nat) (hs : size ≠ 0)
    (l acc : List α) :
    (chunkList size l).foldl (fun a c => a ++ c) acc = acc ++ l := by
  rw [chunkList]
  split
  next h1 => exact absurd h1 hs
  next h1 =>
    split
    next h2 => subst h2; simp
    next h2 =>
      simp only [List.foldl_cons]
      rw [chunkList_foldl_append size hs (l.drop size) (acc ++ l.take size)]
      rw [List.append_assoc, List.take_append_drop]
termination_by l.length
decreasing_by
  rename_i h1 h2
  have := List.length_pos.mpr h2
  simp only [List.length_drop]
  omega

/-- C8: on a success response, the destination file's contents — the
in-order concatenation of all chunks written — are byte-identical to the
served payload, for every positive chunk size (8192 in the source), and
the call returns the destination path it was given. -/
theorem download_video_roundtrip (chunkSize : Nat) (hs : 0 < chunkSize)
    (data : List Nat) (filename : String) :
    download_video chunkSize (.ok ⟨200, data⟩) filename =
      (some data, .ok filename) := by
  simp only [download_video, if_true]
  rw [chunkList_foldl_append chunkSize (by omega) data []]
  rfl

/-- Witness for C8 at the source's chunk size and a concrete payload. -/
theorem download_video_roundtrip_witness :
    0 < 8192 ∧
    download_video 8192 (.ok ⟨200, [7, 3, 77]⟩) "out.mp4" =
      (some [7, 3, 77], .ok "out.mp4") :=
  ⟨by decide, download_video_roundtrip 8192 (by decide) [7, 3, 77] "out.mp4"⟩

/-- C10: on a response whose status code is not 200, `download_video`
raises without ever opening the destination file — the written contents
are `none` (the `open` happens only inside the 200 branch), and the call
ends in the "Download failed" exception. -/
theorem download_video_error_no_write (chunkSize code : Nat)
    (data : List Nat) (filename : String) (h : code ≠ 200) :
    (download_video chunkSize (.ok ⟨code, data⟩) filename).1 = none ∧
    ∃ e, (download_video chunkSize (.ok ⟨code, data⟩) filename).2 =
      .error e := by
  simp [download_video, h]

/-- Witness for C10 at a concrete 404 response. -/
theorem download_video_error_no_write_witness :
    (download_video 8192 (.ok ⟨404, [7, 3]⟩) "out.mp4").1 = none ∧
    ∃ e, (download_video 8192 (.ok ⟨404, [7, 3]⟩) "out.mp4").2 = .error e :=
  download_video_error_no_write 8192 404 [7, 3] "out.mp4" (by decide)

end RunwayTTV
